import Mathlib

/-
Shallow embedding of src/gen/vk_spec_reference_parser.py.

The script walks a fully built Vulkan specification model and prints one
TOML-like record per entity.  Here every Python print statement becomes one
value of the inductive type Line; Line.render gives the exact printed text
(Python's print with the default separator inserts one space between its
arguments, and sep="" concatenates them).  Each *_to_toml function of the
script becomes a Lean function returning the list of lines it prints, and
the module-level traversal becomes the function transcode.

The entity classes come from the external vulkan_object package (it is not
part of this repository); their shape is taken from the attribute accesses
in the script together with the data-model table of the design document.
Optional attributes are Option-valued; the script's pervasive idiom
  x if x else "null"
tests Python truthiness, so an absent value (None), an empty string and the
number zero all fall to the "null" branch; strOrNull and natFieldOrNull
reproduce this.  Attributes the script prints raw (without the null guard
or the boolean ternary) go through pyStrBool / pyStrOptStr, which mirror
Python's str() on bool (True / False) and on None (None).

One genuine fallibility is modelled: the module-level loop
  for handle in vk.handles.values(): ...
leaves the loop variable handle holding the LAST visited handle, and
command_to_toml reads this leftover global.  When the model has commands
but no handles, the name handle is unbound and the pass aborts with a
NameError; transcode returns none in that case.
-/

namespace VkGen

/-- One printed output line. -/
inductive Line where
  | header (name : String)
  | singleton (name : String)
  | kv (key : String) (value : String)
  | blank
deriving DecidableEq, Repr

/-- The exact text of a printed line. -/
def Line.render : Line → String
  | .header n => "[[" ++ n ++ "]]"
  | .singleton n => "[" ++ n ++ "]"
  | .kv k v => k ++ " = " ++ v
  | .blank => ""

/-- Python's comma join. -/
def joinComma (l : List String) : String := String.intercalate "," l

/-- The bracketed list rendering used for every f-string list print. -/
def brackets (s : String) : String := "[" ++ s ++ "]"

/-- The idiom (x if x else "null") on a string attribute: Python truthiness
sends both None and the empty string to "null". -/
def strOrNull : Option String → String
  | none => "null"
  | some s => if s = "" then "null" else s

/-- The idiom (x if x else "null") on a numeric attribute: both None and 0
are falsy, a nonzero value prints as its decimal literal. -/
def natFieldOrNull : Option Nat → String
  | none => "null"
  | some n => if n = 0 then "null" else toString n

/-- Python's str() of an optional string printed raw (no null guard):
str(None) is the token None. -/
def pyStrOptStr : Option String → String
  | none => "None"
  | some s => s

/-- Python's str() of a bool printed raw (no lowercase ternary). -/
def pyStrBool : Bool → String
  | true => "True"
  | false => "False"

/-- The ternary ("true" if b else "false") used for boolean attributes. -/
def boolLit (b : Bool) : String := if b then "true" else "false"

/-- An entity referenced only through its name attribute. -/
structure NamedRef where
  name : String
deriving DecidableEq, Repr

/-- The attribute (ref.name if ref else "null"): a missing object reference
prints null, a present one prints its name. -/
def refNameOrNull : Option NamedRef → String
  | none => "null"
  | some r => r.name

structure FeatureRequirement where
  struct : String
  field : String
  depends : Option String
deriving DecidableEq, Repr

structure Extension where
  name : String
  nameString : String
  specVersion : String
  «instance» : Bool
  device : Bool
  depends : Option String
  vendorTag : Option String
  platform : Option String
  protect : Option String
  provisional : Bool
  promotedTo : Option String
  deprecatedBy : Option String
  obsoletedBy : Option String
  specialUse : List String
  handles : List NamedRef
  commands : List NamedRef
  structs : List NamedRef
  enums : List NamedRef
  bitmasks : List NamedRef
  flags : List (String × List NamedRef)
  enumFields : List (String × List NamedRef)
  flagBits : List (String × List NamedRef)
  featureRequirement : List FeatureRequirement
deriving DecidableEq, Repr

structure Version where
  name : String
  nameApi : String
  featureRequirement : List FeatureRequirement
deriving DecidableEq, Repr

structure Handle where
  name : String
  aliases : List String
  type : String
  protect : Option String
  parent : Option NamedRef
  «instance» : Bool
  device : Bool
  extensions : List String
deriving DecidableEq, Repr

structure Param where
  name : String
  «alias» : Option String
  type : String
  fullType : String
  const : Bool
  pointer : Bool
  optional : Bool
  optionalPointer : Bool
  length : Option String
  nullTerminated : Bool
  fixedSizeArray : List String
  externSync : Bool
  externSyncPointer : Option String
deriving DecidableEq, Repr

structure Command where
  name : String
  «alias» : Option String
  protect : Option String
  version : Option NamedRef
  primary : Bool
  secondary : Bool
  allowNoQueues : Bool
  tasks : List String
  queues : List String
  renderPass : String
  videoCoding : String
  returnType : String
  successCodes : List String
  errorCodes : List String
  implicitExternSyncParams : List String
  params : List Param
deriving DecidableEq, Repr

structure Member where
  name : String
  type : String
  fullType : String
  limitType : Option String
  const : Bool
  pointer : Bool
  fixedSizeArray : List String
  optional : Bool
  optionalPointer : Bool
  externSync : Bool
  bitFieldWidth : Option Nat
  selector : Option String
  selection : List String
deriving DecidableEq, Repr

structure Struct where
  name : String
  aliases : List String
  extensions : List String
  version : Option NamedRef
  protect : Option String
  union : Bool
  sType : Option String
  allowDuplicate : Bool
  «extends» : List String
  extendedBy : List String
  members : List Member
deriving DecidableEq, Repr

structure EnumField where
  name : String
  aliases : List String
  negative : Bool
  value : Int
  extensions : List String
deriving DecidableEq, Repr

structure Enum where
  name : String
  aliases : List String
  protect : Option String
  bitWidth : Nat
  returnedOnly : Bool
  extensions : List String
  fieldExtensions : List String
  fields : List EnumField
deriving DecidableEq, Repr

structure Flag where
  name : String
  aliases : List String
  protect : Option String
  value : Nat
  multiBit : Bool
  zero : Bool
  extensions : List String
deriving DecidableEq, Repr

structure Bitmask where
  name : String
  aliases : List String
  protect : Option String
  flagName : String
  bitWidth : Nat
  returnedOnly : Bool
  extensions : List String
  flagExtensions : List String
  flags : List Flag
deriving DecidableEq, Repr

structure Flags where
  name : String
  aliases : List String
  bitmaskName : Option String
  protect : Option String
  baseFlagsType : String
  bitWidth : Nat
  returnedOnly : Bool
  extensions : List String
deriving DecidableEq, Repr

structure Constant where
  name : String
  type : String
  value : String
deriving DecidableEq, Repr

/-- One enable condition of a SPIR-V item (disjunctive clause). -/
structure Enable where
  version : Option String
  extension : Option String
  struct : Option String
  feature : Option String
  requires : Option String
  property : Option String
  member : Option String
  value : Option Nat
deriving DecidableEq, Repr

structure SpirvItem where
  name : String
  extension : Bool
  enable : List Enable
deriving DecidableEq, Repr

/-- The model object returned by get_vulkan_object(); each ordered mapping
is embedded as the list of its values in iteration order. -/
structure VulkanObject where
  extensions : List Extension
  versions : List Version
  handles : List Handle
  commands : List Command
  structs : List Struct
  enums : List Enum
  bitmasks : List Bitmask
  flags : List Flags
  constants : List Constant
  formats : List String
  syncStage : List String
  syncAccess : List String
  syncPipeline : List String
  spirv : List SpirvItem
  platforms : List (String × String)
  vendorTags : List String
  videoCodecs : List String
deriving DecidableEq, Repr

/-- The loop body printing one feature-requirement block (identical code in
extension_to_toml and version_to_toml). -/
def featureRequirement_lines (fr : FeatureRequirement) : List Line :=
  [Line.header "feature_requirement",
   Line.kv "struct" fr.struct,
   Line.kv "field" fr.field,
   Line.kv "depends" (strOrNull fr.depends)]

def extension_to_toml (item : Extension) : List Line :=
  [Line.header "extension",
   Line.kv "name" item.name,
   Line.kv "name_string" item.nameString,
   Line.kv "spec_version_string" item.specVersion,
   Line.kv "instance" (boolLit item.«instance»),
   Line.kv "device" (boolLit item.device),
   Line.kv "depends" (strOrNull item.depends),
   Line.kv "vendor_tag" (strOrNull item.vendorTag),
   Line.kv "platform" (strOrNull item.platform),
   Line.kv "protect" (strOrNull item.protect),
   Line.kv "provisional" (boolLit item.provisional),
   Line.kv "promoted_to" (strOrNull item.promotedTo),
   Line.kv "deprecated_by" (strOrNull item.deprecatedBy),
   Line.kv "obsoleted_by" (strOrNull item.obsoletedBy),
   Line.kv "special_use" (joinComma item.specialUse),
   Line.kv "handles" (brackets (joinComma (item.handles.map NamedRef.name))),
   Line.kv "commands" (brackets (joinComma (item.commands.map NamedRef.name))),
   Line.kv "structs" (brackets (joinComma (item.structs.map NamedRef.name))),
   Line.kv "enums" (brackets (joinComma (item.enums.map NamedRef.name))),
   Line.kv "bitmasks" (brackets (joinComma (item.bitmasks.map NamedRef.name)))]
  ++ (item.flags.map (fun nf =>
       [Line.header "flags",
        Line.kv "flag" nf.1,
        Line.kv "flags" (brackets (joinComma (nf.2.map NamedRef.name)))])).flatten
  ++ (item.enumFields.map (fun nf =>
       [Line.header "enum_fields",
        Line.kv "enum" nf.1,
        Line.kv "fields" (brackets (joinComma (nf.2.map NamedRef.name)))])).flatten
  ++ (item.flagBits.map (fun nf =>
       [Line.header "flag_bits",
        Line.kv "flag" nf.1,
        Line.kv "bits" (brackets (joinComma (nf.2.map NamedRef.name)))])).flatten
  ++ (item.featureRequirement.map featureRequirement_lines).flatten
  ++ [Line.blank]

def version_to_toml (item : Version) : List Line :=
  [Line.header "item",
   Line.kv "name" item.name,
   Line.kv "api" item.nameApi,
   Line.kv "api" item.nameApi]
  ++ (item.featureRequirement.map featureRequirement_lines).flatten
  ++ [Line.blank]

def handle_to_toml (item : Handle) : List Line :=
  [Line.header "item",
   Line.kv "name" item.name,
   Line.kv "aliases" (brackets (joinComma item.aliases)),
   Line.kv "type" item.type,
   Line.kv "protect" (strOrNull item.protect),
   Line.kv "parent" (refNameOrNull item.parent),
   Line.kv "instance" (boolLit item.«instance»),
   Line.kv "devices" (boolLit item.device),
   Line.kv "extensions" (brackets (joinComma item.extensions)),
   Line.blank]

/-- The loop body printing one parameter block inside command_to_toml.
Note: alias and extern_sync are printed raw (str()), with no null guard and
no lowercase boolean ternary. -/
def param_lines (param : Param) : List Line :=
  [Line.header "parameter",
   Line.kv "name" param.name,
   Line.kv "alias" (pyStrOptStr param.«alias»),
   Line.kv "type" param.type,
   Line.kv "full_type" param.fullType,
   Line.kv "const" (boolLit param.const),
   Line.kv "pointer" (boolLit param.pointer),
   Line.kv "optional" (boolLit param.optional),
   Line.kv "optional_pointer" (boolLit param.optionalPointer),
   Line.kv "length" (strOrNull param.length),
   Line.kv "null_terminated" (boolLit param.nullTerminated),
   Line.kv "array_size" (brackets (joinComma param.fixedSizeArray)),
   Line.kv "extern_sync" (pyStrBool param.externSync),
   Line.kv "extern_sync_pointer" (strOrNull param.externSyncPointer)]

/-- command_to_toml reads the module-level global handle (the leftover loop
variable of the handles traversal), passed here explicitly as hstale.  The
instance / devices / extensions lines come from hstale, not from item. -/
def command_to_toml (hstale : Handle) (item : Command) : List Line :=
  [Line.header "item",
   Line.kv "name" item.name,
   Line.kv "alias" (strOrNull item.«alias»),
   Line.kv "protect" (strOrNull item.protect),
   Line.kv "version" (refNameOrNull item.version),
   Line.kv "instance" (boolLit hstale.«instance»),
   Line.kv "devices" (boolLit hstale.device),
   Line.kv "primary" (boolLit item.primary),
   Line.kv "secondary" (boolLit item.secondary),
   Line.kv "allow_no_queues" (boolLit item.allowNoQueues),
   Line.kv "extensions" (brackets (joinComma hstale.extensions)),
   Line.kv "tasks" (brackets (joinComma item.tasks)),
   Line.kv "queues" (brackets (joinComma item.queues)),
   Line.kv "render_pass" item.renderPass,
   Line.kv "video_conding" item.videoCoding,
   Line.kv "return_type" item.returnType,
   Line.kv "success_codes" (brackets (joinComma item.successCodes)),
   Line.kv "error_codes" (brackets (joinComma item.errorCodes)),
   Line.kv "implicit_extern_sync_params"
     (brackets (joinComma item.implicitExternSyncParams))]
  ++ (item.params.map param_lines).flatten
  ++ [Line.blank]

/-- The loop body printing one member block inside struct_to_toml. -/
def member_lines (member : Member) : List Line :=
  [Line.header "member",
   Line.kv "name" member.name,
   Line.kv "type" member.type,
   Line.kv "full_type" member.fullType,
   Line.kv "limit_type" (strOrNull member.limitType),
   Line.kv "const" (boolLit member.const),
   Line.kv "pointer" (boolLit member.pointer),
   Line.kv "array_size" (brackets (joinComma member.fixedSizeArray)),
   Line.kv "optional" (boolLit member.optional),
   Line.kv "optional_ptr" (boolLit member.optionalPointer),
   Line.kv "extern_sync" (pyStrBool member.externSync),
   Line.kv "bits" (natFieldOrNull member.bitFieldWidth),
   Line.kv "selector" (strOrNull member.selector),
   Line.kv "selection" (brackets (joinComma member.selection))]

/-- Note: an absent owning version prints the substitute default name
VK_VERSION_1_0 (item.version.name if item.version else "VK_VERSION_1_0"),
not null. -/
def struct_to_toml (item : Struct) : List Line :=
  [Line.header "item",
   Line.kv "name" item.name,
   Line.kv "aliases" (brackets (joinComma item.aliases)),
   Line.kv "extensions" (brackets (joinComma item.extensions)),
   Line.kv "version"
     (match item.version with
      | some r => r.name
      | none => "VK_VERSION_1_0"),
   Line.kv "protect" (strOrNull item.protect),
   Line.kv "union" (boolLit item.union),
   Line.kv "sType" (strOrNull item.sType),
   Line.kv "allow_duplicate" (boolLit item.allowDuplicate),
   Line.kv "extends" (brackets (joinComma item.«extends»)),
   Line.kv "extended_by" (brackets (joinComma item.extendedBy))]
  ++ (item.members.map member_lines).flatten
  ++ [Line.blank]

def enumField_lines (m : EnumField) : List Line :=
  [Line.header "field",
   Line.kv "name" m.name,
   Line.kv "aliases" (brackets (joinComma m.aliases)),
   Line.kv "negative" (boolLit m.negative),
   Line.kv "value" (toString m.value),
   Line.kv "extensions" (brackets (joinComma m.extensions))]

def enum_to_toml (item : Enum) : List Line :=
  [Line.header "enum",
   Line.kv "name" item.name,
   Line.kv "aliases" (brackets (joinComma item.aliases)),
   Line.kv "protect" (strOrNull item.protect),
   Line.kv "bitwidth" (toString item.bitWidth),
   Line.kv "return_only" (boolLit item.returnedOnly),
   Line.kv "extensions" (brackets (joinComma item.extensions)),
   Line.kv "field_extensions" (brackets (joinComma item.fieldExtensions))]
  ++ (item.fields.map enumField_lines).flatten
  ++ [Line.blank]

def flag_lines (m : Flag) : List Line :=
  [Line.header "flag",
   Line.kv "name" m.name,
   Line.kv "aliases" (brackets (joinComma m.aliases)),
   Line.kv "protect" (strOrNull m.protect),
   Line.kv "value" (toString m.value),
   Line.kv "multibit" (boolLit m.multiBit),
   Line.kv "zero" (boolLit m.zero),
   Line.kv "extensions" (brackets (joinComma m.extensions))]

def bitmask_to_toml (item : Bitmask) : List Line :=
  [Line.header "bitmask",
   Line.kv "name" item.name,
   Line.kv "aliases" (brackets (joinComma item.aliases)),
   Line.kv "protect" (strOrNull item.protect),
   Line.kv "flags_name" item.flagName,
   Line.kv "bitwidth" (toString item.bitWidth),
   Line.kv "return_only" (boolLit item.returnedOnly),
   Line.kv "extensions" (brackets (joinComma item.extensions)),
   Line.kv "flag_extensions" (brackets (joinComma item.flagExtensions))]
  ++ (item.flags.map flag_lines).flatten
  ++ [Line.blank]

def flags_to_toml (item : Flags) : List Line :=
  [Line.header "flags",
   Line.kv "name" item.name,
   Line.kv "aliases" (brackets (joinComma item.aliases)),
   Line.kv "bitmask_name" (strOrNull item.bitmaskName),
   Line.kv "protect" (strOrNull item.protect),
   Line.kv "base_flags_type" item.baseFlagsType,
   Line.kv "bitwidth" (toString item.bitWidth),
   Line.kv "return_only" (boolLit item.returnedOnly),
   Line.kv "extensions" (brackets (joinComma item.extensions)),
   Line.blank]

def constant_to_toml (item : Constant) : List Line :=
  [Line.header "constant",
   Line.kv "name" item.name,
   Line.kv "type" item.type,
   Line.kv "value" item.value,
   Line.blank]

/-- The loop body printing one enable-condition block inside spirv_to_toml:
all eight keys are always printed, each behind the truthiness null guard. -/
def enable_lines (m : Enable) : List Line :=
  [Line.header "enable",
   Line.kv "version" (strOrNull m.version),
   Line.kv "extension" (strOrNull m.extension),
   Line.kv "struct" (strOrNull m.struct),
   Line.kv "feature" (strOrNull m.feature),
   Line.kv "requires" (strOrNull m.requires),
   Line.kv "property" (strOrNull m.property),
   Line.kv "member" (strOrNull m.member),
   Line.kv "value" (natFieldOrNull m.value)]

def spirv_to_toml (item : SpirvItem) : List Line :=
  [(if item.extension then Line.header "spirv_extension"
    else Line.header "spirv_capability"),
   Line.kv "name" item.name]
  ++ (item.enable.map enable_lines).flatten
  ++ [Line.blank]

/-- The inline loop over vk.platforms.items(). -/
def platform_to_toml (p : String × String) : List Line :=
  [Line.header "platform",
   Line.kv "name" p.1,
   Line.kv "ext" p.2,
   Line.blank]

/-- The value of the module-level variable handle after the handles loop:
the last handle visited (none when the loop body never ran). -/
def staleHandle (vk : VulkanObject) : Option Handle :=
  vk.handles.getLast?

/-- The commands loop: every command record is rendered against the stale
leftover handle.  When there is no such handle the loop body, if it runs at
all, hits an unbound name; that case is handled in transcode. -/
def commandSection (vk : VulkanObject) : List Line :=
  match staleHandle vk with
  | some hstale => (vk.commands.map (command_to_toml hstale)).flatten
  | none => []

/-- The whole module-level traversal.  Returns none when the pass aborts:
with at least one command and no handles the global name handle is unbound
inside command_to_toml (NameError) and the process dies before printing the
rest of the stream.  The formats / syncStage / syncAccess / syncPipeline /
videoCodecs loops have pass bodies and contribute no lines. -/
def transcode (vk : VulkanObject) : Option (List Line) :=
  if vk.handles.isEmpty && !vk.commands.isEmpty then
    none
  else
    some ((vk.extensions.map extension_to_toml).flatten
      ++ (vk.versions.map version_to_toml).flatten
      ++ (vk.handles.map handle_to_toml).flatten
      ++ commandSection vk
      ++ (vk.structs.map struct_to_toml).flatten
      ++ (vk.enums.map enum_to_toml).flatten
      ++ (vk.bitmasks.map bitmask_to_toml).flatten
      ++ (vk.flags.map flags_to_toml).flatten
      ++ (vk.constants.map constant_to_toml).flatten
      ++ (vk.formats.map (fun _ => ([] : List Line))).flatten
      ++ (vk.syncStage.map (fun _ => ([] : List Line))).flatten
      ++ (vk.syncAccess.map (fun _ => ([] : List Line))).flatten
      ++ (vk.syncPipeline.map (fun _ => ([] : List Line))).flatten
      ++ (vk.spirv.map spirv_to_toml).flatten
      ++ (vk.platforms.map platform_to_toml).flatten
      ++ [Line.singleton "vendor_tags",
          Line.kv "tags" (brackets (joinComma vk.vendorTags)),
          Line.blank]
      ++ (vk.videoCodecs.map (fun _ => ([] : List Line))).flatten)

/-- Modelled from the spec: the repository has no code resolving a
command's owning handle; the design document (sections 4 and 9) states the
command's instance / device applicability and owning extensions must come
from the handle named by the command's first parameter's handle type,
looked up explicitly per command.  This is the spec's intended derivation,
used as the comparison point for the stale-variable defect. -/
def owningHandle (handles : List Handle) (cmd : Command) : Option Handle :=
  cmd.params.head?.bind (fun p => handles.find? (fun hd => hd.name == p.type))

/-- Is this line a single-bracket singleton table header? -/
def isSingletonLine : Line → Bool
  | .singleton _ => true
  | _ => false

/-- The key of a key-value line. -/
def keyOf : Line → Option String
  | .kv k _ => some k
  | _ => none

/-- The keys of the key-value lines of a block, in order. -/
def keysOf (L : List Line) : List String := L.filterMap keyOf

/- Concrete fixture entities used to evaluate the transcoder. -/

def extBase : Extension :=
  { name := "VK_KHR_swapchain", nameString := "VK_KHR_SWAPCHAIN_EXTENSION_NAME",
    specVersion := "70", «instance» := false, device := true, depends := none,
    vendorTag := some "KHR", platform := none, protect := none, provisional := false,
    promotedTo := none, deprecatedBy := none, obsoletedBy := none, specialUse := [],
    handles := [], commands := [], structs := [], enums := [], bitmasks := [],
    flags := [], enumFields := [], flagBits := [], featureRequirement := [] }

def verBase : Version :=
  { name := "VK_VERSION_1_1", nameApi := "vulkan", featureRequirement := [] }

def hanBase : Handle :=
  { name := "VkInstance", aliases := [], type := "VK_DEFINE_HANDLE", protect := none,
    parent := none, «instance» := true, device := false, extensions := [] }

def hanDev : Handle :=
  { name := "VkDevice", aliases := [], type := "VK_DEFINE_HANDLE", protect := none,
    parent := some { name := "VkPhysicalDevice" }, «instance» := false, device := true,
    extensions := ["VK_EXT_debug_marker"] }

def parBase : Param :=
  { name := "instance", «alias» := none, type := "VkInstance", fullType := "VkInstance",
    const := false, pointer := false, optional := true, optionalPointer := false,
    length := none, nullTerminated := false, fixedSizeArray := [], externSync := false,
    externSyncPointer := none }

def cmdBase : Command :=
  { name := "vkDestroyInstance", «alias» := none, protect := none, version := none,
    primary := true, secondary := false, allowNoQueues := false, tasks := [],
    queues := [], renderPass := "BOTH", videoCoding := "BOTH", returnType := "void",
    successCodes := [], errorCodes := [], implicitExternSyncParams := [], params := [] }

def memBase : Member :=
  { name := "sType", type := "VkStructureType", fullType := "VkStructureType",
    limitType := none, const := false, pointer := false, fixedSizeArray := [],
    optional := false, optionalPointer := false, externSync := false,
    bitFieldWidth := none, selector := none, selection := [] }

def structBase : Struct :=
  { name := "VkExtent2D", aliases := [], extensions := [], version := none,
    protect := none, union := false, sType := none, allowDuplicate := false,
    «extends» := [], extendedBy := [], members := [] }

def conBase : Constant :=
  { name := "VK_MAX_EXTENSION_NAME_SIZE", type := "uint32_t", value := "256" }

def flagsBase : Flags :=
  { name := "VkAccessFlags", aliases := [], bitmaskName := none, protect := none,
    baseFlagsType := "VkFlags", bitWidth := 32, returnedOnly := false, extensions := [] }

def enBase : Enable :=
  { version := none, extension := none, struct := none, feature := none,
    requires := none, property := none, member := none, value := none }

def spvBase : SpirvItem :=
  { name := "SPV_KHR_variable_pointers", extension := true, enable := [] }

/-- A model with every category empty. -/
def vkEmpty : VulkanObject :=
  { extensions := [], versions := [], handles := [], commands := [], structs := [],
    enums := [], bitmasks := [], flags := [], constants := [], formats := [],
    syncStage := [], syncAccess := [], syncPipeline := [], spirv := [],
    platforms := [], vendorTags := [], videoCodecs := [] }

/-- A command whose first parameter's handle type is VkInstance. -/
def cmdC1 : Command := { cmdBase with params := [parBase] }

/-- Two handles, one command owned by the first: the last visited handle
(VkDevice) is not the command's owning handle (VkInstance). -/
def vkC1 : VulkanObject := { vkEmpty with handles := [hanBase, hanDev], commands := [cmdC1] }

/-- A command whose own alias is present but whose parameter's alias is absent. -/
def cmdC2 : Command :=
  { cmdBase with «alias» := some "vkDestroyInstanceOld", params := [parBase] }

def extC3 : Extension := { extBase with specialUse := ["colorspace", "d3demulation"] }

def parC4 : Param := { parBase with externSync := true }

def cmdC4 : Command := { cmdBase with params := [parC4] }

/-- A model with a command but no handles: the commands loop dereferences
the unbound leftover handle variable. -/
def vkC8bad : VulkanObject := { vkEmpty with commands := [cmdBase] }

/-- A small model populating several categories. -/
def vkC8good : VulkanObject :=
  { vkEmpty with
    versions := [verBase], handles := [hanBase], constants := [conBase],
    spirv := [spvBase], platforms := [("xlib", "VK_USE_PLATFORM_XLIB_KHR")],
    vendorTags := ["KHR", "EXT"] }

def vkC10bad : VulkanObject :=
  { vkEmpty with commands := [{ cmdBase with name := "vkCreateDevice" }] }

def cmdW2 : Command := { cmdBase with params := [parBase] }

def structW2 : Struct := { structBase with members := [memBase] }

def flagBase : Flag :=
  { name := "VK_ACCESS_2_NONE", aliases := [], protect := none, value := 0,
    multiBit := false, zero := true, extensions := [] }

def bmBase : Bitmask :=
  { name := "VkAccessFlagBits", aliases := [], protect := none,
    flagName := "VkAccessFlags", bitWidth := 32, returnedOnly := false,
    extensions := [], flagExtensions := [], flags := [flagBase] }

def extC9 : Extension := { extBase with depends := some "" }

def structC9 : Struct :=
  { structBase with members := [{ memBase with bitFieldWidth := some 0 }] }

def spvC9 : SpirvItem := { spvBase with enable := [{ enBase with value := some 0 }] }

def spvC7 : SpirvItem := { spvBase with enable := [enBase] }

def spvCap : SpirvItem := { spvBase with extension := false }

/- Helper lemmas shared by the claim theorems. -/

lemma mem_command_of_mem_param {l : Line} {p : Param} {c : Command} (hs : Handle)
    (hp : p ∈ c.params) (h : l ∈ param_lines p) : l ∈ command_to_toml hs c := by
  unfold command_to_toml
  exact List.mem_append_left _ (List.mem_append_right _
    (List.mem_flatten.mpr ⟨param_lines p, List.mem_map_of_mem _ hp, h⟩))

lemma mem_struct_of_mem_member {l : Line} {m : Member} {st : Struct}
    (hm : m ∈ st.members) (h : l ∈ member_lines m) : l ∈ struct_to_toml st := by
  unfold struct_to_toml
  exact List.mem_append_left _ (List.mem_append_right _
    (List.mem_flatten.mpr ⟨member_lines m, List.mem_map_of_mem _ hm, h⟩))

lemma mem_spirv_of_mem_enable {l : Line} {m : Enable} {s : SpirvItem}
    (hm : m ∈ s.enable) (h : l ∈ enable_lines m) : l ∈ spirv_to_toml s := by
  unfold spirv_to_toml
  exact List.mem_append_left _ (List.mem_append_right _
    (List.mem_flatten.mpr ⟨enable_lines m, List.mem_map_of_mem _ hm, h⟩))

lemma mem_bitmask_of_mem_flag {l : Line} {fb : Flag} {bm : Bitmask}
    (hfb : fb ∈ bm.flags) (h : l ∈ flag_lines fb) : l ∈ bitmask_to_toml bm := by
  unfold bitmask_to_toml
  exact List.mem_append_left _ (List.mem_append_right _
    (List.mem_flatten.mpr ⟨flag_lines fb, List.mem_map_of_mem _ hfb, h⟩))

lemma kv_boolLit_or {L : List Line} {k : String} {b : Bool}
    (h : Line.kv k (boolLit b) ∈ L) :
    Line.kv k "true" ∈ L ∨ Line.kv k "false" ∈ L := by
  cases b
  · right; simpa [boolLit] using h
  · left; simpa [boolLit] using h

lemma kv_pyStrBool_or {L : List Line} {k : String} {b : Bool}
    (h : Line.kv k (pyStrBool b) ∈ L) :
    Line.kv k "True" ∈ L ∨ Line.kv k "False" ∈ L := by
  cases b
  · right; simpa [pyStrBool] using h
  · left; simpa [pyStrBool] using h

lemma countP_flatten_zero {α : Type} (p : Line → Bool) (f : α → List Line)
    (xs : List α) (h : ∀ x, (f x).countP p = 0) :
    ((xs.map f).flatten).countP p = 0 := by
  induction xs with
  | nil => simp
  | cons a l ih => simp [List.countP_append, h a, ih]

lemma noSing_fr (fr : FeatureRequirement) :
    (featureRequirement_lines fr).countP isSingletonLine = 0 := by
  simp [featureRequirement_lines, List.countP_cons, isSingletonLine]

lemma noSing_param (p : Param) : (param_lines p).countP isSingletonLine = 0 := by
  simp [param_lines, List.countP_cons, isSingletonLine]

lemma noSing_member (m : Member) : (member_lines m).countP isSingletonLine = 0 := by
  simp [member_lines, List.countP_cons, isSingletonLine]

lemma noSing_enable (m : Enable) : (enable_lines m).countP isSingletonLine = 0 := by
  simp [enable_lines, List.countP_cons, isSingletonLine]

lemma noSing_enumField (m : EnumField) :
    (enumField_lines m).countP isSingletonLine = 0 := by
  simp [enumField_lines, List.countP_cons, isSingletonLine]

lemma noSing_flag (m : Flag) : (flag_lines m).countP isSingletonLine = 0 := by
  simp [flag_lines, List.countP_cons, isSingletonLine]

lemma noSing_extension (e : Extension) :
    (extension_to_toml e).countP isSingletonLine = 0 := by
  unfold extension_to_toml
  simp only [List.countP_append]
  rw [countP_flatten_zero _ _ _ (fun nf => by simp [List.countP_cons, isSingletonLine]),
    countP_flatten_zero _ _ _ (fun nf => by simp [List.countP_cons, isSingletonLine]),
    countP_flatten_zero _ _ _ (fun nf => by simp [List.countP_cons, isSingletonLine]),
    countP_flatten_zero _ _ _ noSing_fr]
  simp [List.countP_cons, isSingletonLine]

lemma noSing_version (v : Version) :
    (version_to_toml v).countP isSingletonLine = 0 := by
  unfold version_to_toml
  simp only [List.countP_append]
  rw [countP_flatten_zero _ _ _ noSing_fr]
  simp [List.countP_cons, isSingletonLine]

lemma noSing_handle (hl : Handle) :
    (handle_to_toml hl).countP isSingletonLine = 0 := by
  simp [handle_to_toml, List.countP_cons, isSingletonLine]

lemma noSing_command (hs : Handle) (c : Command) :
    (command_to_toml hs c).countP isSingletonLine = 0 := by
  unfold command_to_toml
  simp only [List.countP_append]
  rw [countP_flatten_zero _ _ _ noSing_param]
  simp [List.countP_cons, isSingletonLine]

lemma noSing_struct (st : Struct) :
    (struct_to_toml st).countP isSingletonLine = 0 := by
  unfold struct_to_toml
  simp only [List.countP_append]
  rw [countP_flatten_zero _ _ _ noSing_member]
  simp [List.countP_cons, isSingletonLine]

lemma noSing_enum (en : Enum) :
    (enum_to_toml en).countP isSingletonLine = 0 := by
  unfold enum_to_toml
  simp only [List.countP_append]
  rw [countP_flatten_zero _ _ _ noSing_enumField]
  simp [List.countP_cons, isSingletonLine]

lemma noSing_bitmask (bm : Bitmask) :
    (bitmask_to_toml bm).countP isSingletonLine = 0 := by
  unfold bitmask_to_toml
  simp only [List.countP_append]
  rw [countP_flatten_zero _ _ _ noSing_flag]
  simp [List.countP_cons, isSingletonLine]

lemma noSing_flags (fl : Flags) :
    (flags_to_toml fl).countP isSingletonLine = 0 := by
  simp [flags_to_toml, List.countP_cons, isSingletonLine]

lemma noSing_constant (co : Constant) :
    (constant_to_toml co).countP isSingletonLine = 0 := by
  simp [constant_to_toml, List.countP_cons, isSingletonLine]

lemma noSing_spirv (s : SpirvItem) :
    (spirv_to_toml s).countP isSingletonLine = 0 := by
  unfold spirv_to_toml
  simp only [List.countP_append]
  rw [countP_flatten_zero _ _ _ noSing_enable]
  cases s.extension <;> simp [List.countP_cons, isSingletonLine]

lemma noSing_platform (pl : String × String) :
    (platform_to_toml pl).countP isSingletonLine = 0 := by
  simp [platform_to_toml, List.countP_cons, isSingletonLine]

lemma noSing_commandSection (vk : VulkanObject) :
    (commandSection vk).countP isSingletonLine = 0 := by
  unfold commandSection
  cases staleHandle vk with
  | none => simp
  | some hs => exact countP_flatten_zero _ _ _ (noSing_command hs)

/-- Claim C1: the command record's instance, devices and extensions lines are
NOT derived from the command's own owning handle: the traversal renders every
command against the stale last-visited handle of the earlier handles loop.  In
the model vkC1 the command vkDestroyInstance is owned by VkInstance (its first
parameter's handle type), yet the emitted record carries VkDevice's
instance/device flags and extension list. -/
theorem C1_stale_handle_bug :
    staleHandle vkC1 = some hanDev ∧
    commandSection vkC1 = command_to_toml hanDev cmdC1 ∧
    Line.kv "instance" "false" ∈ command_to_toml hanDev cmdC1 ∧
    Line.kv "extensions" "[VK_EXT_debug_marker]" ∈ command_to_toml hanDev cmdC1 ∧
    owningHandle vkC1.handles cmdC1 = some hanBase ∧
    hanDev ≠ hanBase ∧
    Line.kv "instance" "true" ∈ command_to_toml hanBase cmdC1 ∧
    Line.kv "extensions" "[]" ∈ command_to_toml hanBase cmdC1 := by decide

/-- Claim C2, counterexample: a struct with an absent owning version renders
the substitute default name VK_VERSION_1_0 (not the token null), and a command
parameter with an absent alias is printed raw as None (not null). -/
theorem C2_counterexample :
    Line.kv "version" "VK_VERSION_1_0" ∈ struct_to_toml structBase ∧
    Line.kv "version" "null" ∉ struct_to_toml structBase ∧
    Line.kv "alias" "None" ∈ command_to_toml hanBase cmdC2 ∧
    Line.kv "alias" "null" ∉ command_to_toml hanBase cmdC2 := by decide

/-- Claim C2 as amended: optional attributes guarded by the null sentinel
render as the bare token null when absent, with two exceptions: a struct whose
owning version is absent renders version = VK_VERSION_1_0, and a command
parameter's alias is printed raw, rendering alias = None when absent. -/
theorem C2_null_rendering
    (e : Extension) (hl : Handle) (c : Command) (p : Param) (st : Struct)
    (fl : Flags) (m : Member)
    (h1 : e.depends = none) (h2 : hl.parent = none) (h3 : c.version = none)
    (h4 : c.«alias» = none) (h5 : p ∈ c.params) (h6 : p.length = none)
    (h7 : p.«alias» = none) (h8 : st.version = none) (h9 : st.sType = none)
    (h10 : m ∈ st.members) (h11 : m.selector = none)
    (h12 : fl.bitmaskName = none) :
    Line.kv "depends" "null" ∈ extension_to_toml e ∧
    Line.kv "parent" "null" ∈ handle_to_toml hl ∧
    Line.kv "version" "null" ∈ command_to_toml hl c ∧
    Line.kv "alias" "null" ∈ command_to_toml hl c ∧
    Line.kv "length" "null" ∈ command_to_toml hl c ∧
    Line.kv "alias" "None" ∈ command_to_toml hl c ∧
    Line.kv "version" "VK_VERSION_1_0" ∈ struct_to_toml st ∧
    Line.kv "sType" "null" ∈ struct_to_toml st ∧
    Line.kv "selector" "null" ∈ struct_to_toml st ∧
    Line.kv "bitmask_name" "null" ∈ flags_to_toml fl := by
  refine ⟨?_, ?_, ?_, ?_, ?_, ?_, ?_, ?_, ?_, ?_⟩
  · simp [extension_to_toml, h1, strOrNull]
  · simp [handle_to_toml, h2, refNameOrNull]
  · simp [command_to_toml, h3, refNameOrNull]
  · simp [command_to_toml, h4, strOrNull]
  · exact mem_command_of_mem_param hl h5 (by simp [param_lines, h6, strOrNull])
  · exact mem_command_of_mem_param hl h5 (by simp [param_lines, h7, pyStrOptStr])
  · simp [struct_to_toml, h8]
  · simp [struct_to_toml, h9, strOrNull]
  · exact mem_struct_of_mem_member h10 (by simp [member_lines, h11, strOrNull])
  · simp [flags_to_toml, h12, strOrNull]

/-- Claim C2, witness: the amended statement instantiated at concrete
entities with all the optional attributes absent. -/
theorem C2_null_rendering_witness :
    Line.kv "depends" "null" ∈ extension_to_toml extBase ∧
    Line.kv "parent" "null" ∈ handle_to_toml hanBase ∧
    Line.kv "version" "null" ∈ command_to_toml hanBase cmdW2 ∧
    Line.kv "alias" "null" ∈ command_to_toml hanBase cmdW2 ∧
    Line.kv "length" "null" ∈ command_to_toml hanBase cmdW2 ∧
    Line.kv "alias" "None" ∈ command_to_toml hanBase cmdW2 ∧
    Line.kv "version" "VK_VERSION_1_0" ∈ struct_to_toml structW2 ∧
    Line.kv "sType" "null" ∈ struct_to_toml structW2 ∧
    Line.kv "selector" "null" ∈ struct_to_toml structW2 ∧
    Line.kv "bitmask_name" "null" ∈ flags_to_toml flagsBase :=
  C2_null_rendering extBase hanBase cmdW2 parBase structW2 flagsBase memBase
    rfl rfl rfl rfl (by decide) rfl rfl rfl rfl (by decide) rfl rfl

/-- Claim C3, counterexample: an extension's special-use tags are joined with
commas but never bracketed, so a two-tag list renders as the bare token pair,
not as a bracketed sequence. -/
theorem C3_counterexample :
    Line.kv "special_use" "colorspace,d3demulation" ∈ extension_to_toml extC3 ∧
    Line.kv "special_use" "[colorspace,d3demulation]" ∉ extension_to_toml extC3 ∧
    (Line.kv "special_use" "colorspace,d3demulation").render =
      "special_use = colorspace,d3demulation" := by decide

/-- Claim C3 as amended: every list-valued attribute except an extension's
special-use tags renders as a single bracketed comma-joined sequence with no
separating spaces, an empty list rendering as the two-character token; the
special-use tags render as the bare comma-joined sequence without brackets
(empty list rendering as an empty value). -/
theorem C3_list_rendering
    (e : Extension) (hl : Handle) (c : Command) (p : Param) (st : Struct)
    (m : Member) (hp : p ∈ c.params) (hm : m ∈ st.members) :
    Line.kv "handles" (brackets (joinComma (e.handles.map NamedRef.name)))
      ∈ extension_to_toml e ∧
    (e.handles = [] → Line.kv "handles" "[]" ∈ extension_to_toml e) ∧
    Line.kv "special_use" (joinComma e.specialUse) ∈ extension_to_toml e ∧
    (e.specialUse = [] → Line.kv "special_use" "" ∈ extension_to_toml e) ∧
    Line.kv "aliases" (brackets (joinComma hl.aliases)) ∈ handle_to_toml hl ∧
    Line.kv "queues" (brackets (joinComma c.queues)) ∈ command_to_toml hl c ∧
    Line.kv "array_size" (brackets (joinComma p.fixedSizeArray))
      ∈ command_to_toml hl c ∧
    Line.kv "selection" (brackets (joinComma m.selection)) ∈ struct_to_toml st ∧
    brackets (joinComma []) = "[]" ∧
    brackets (joinComma ["A", "B", "C"]) = "[A,B,C]" ∧
    (Line.kv "handles" (brackets (joinComma ["A", "B", "C"]))).render =
      "handles = [A,B,C]" := by
  refine ⟨?_, ?_, ?_, ?_, ?_, ?_, ?_, ?_, by decide, by decide, by decide⟩
  · simp [extension_to_toml]
  · intro h
    have hb : brackets (joinComma ([] : List String)) = "[]" := by decide
    simp [extension_to_toml, h, hb]
  · simp [extension_to_toml]
  · intro h
    have hb : joinComma ([] : List String) = "" := by decide
    simp [extension_to_toml, h, hb]
  · simp [handle_to_toml]
  · simp [command_to_toml]
  · exact mem_command_of_mem_param hl hp (by simp [param_lines])
  · exact mem_struct_of_mem_member hm (by simp [member_lines])

/-- Claim C3, witness: the amended statement instantiated at concrete
entities, with the special-use and handle lists empty. -/
theorem C3_list_rendering_witness :
    Line.kv "handles" (brackets (joinComma (extBase.handles.map NamedRef.name)))
      ∈ extension_to_toml extBase ∧
    (extBase.handles = [] → Line.kv "handles" "[]" ∈ extension_to_toml extBase) ∧
    Line.kv "special_use" (joinComma extBase.specialUse) ∈ extension_to_toml extBase ∧
    (extBase.specialUse = [] →
      Line.kv "special_use" "" ∈ extension_to_toml extBase) ∧
    Line.kv "aliases" (brackets (joinComma hanBase.aliases)) ∈ handle_to_toml hanBase ∧
    Line.kv "queues" (brackets (joinComma cmdW2.queues)) ∈ command_to_toml hanBase cmdW2 ∧
    Line.kv "array_size" (brackets (joinComma parBase.fixedSizeArray))
      ∈ command_to_toml hanBase cmdW2 ∧
    Line.kv "selection" (brackets (joinComma memBase.selection))
      ∈ struct_to_toml structW2 ∧
    brackets (joinComma []) = "[]" ∧
    brackets (joinComma ["A", "B", "C"]) = "[A,B,C]" ∧
    (Line.kv "handles" (brackets (joinComma ["A", "B", "C"]))).render =
      "handles = [A,B,C]" :=
  C3_list_rendering extBase hanBase cmdW2 parBase structW2 memBase
    (by decide) (by decide)

/-- Claim C4, counterexample: a parameter's external-sync flag is printed raw
through Python str(), so a set flag renders as the capitalized token True, not
as the lowercase token true. -/
theorem C4_counterexample :
    Line.kv "extern_sync" "True" ∈ command_to_toml hanBase cmdC4 ∧
    Line.kv "extern_sync" "true" ∉ command_to_toml hanBase cmdC4 := by decide

/-- Claim C4 as amended: every boolean attribute rendered through the
conditional prints exactly the lowercase token true or false, but a
parameter's and a member's external-sync flag are printed raw as the Python
booleans True / False. -/
theorem C4_boolean_rendering
    (e : Extension) (hl : Handle) (c : Command) (p : Param) (st : Struct)
    (m : Member) (bm : Bitmask) (fb : Flag)
    (hp : p ∈ c.params) (hm : m ∈ st.members) (hfb : fb ∈ bm.flags) :
    (Line.kv "instance" "true" ∈ extension_to_toml e ∨
      Line.kv "instance" "false" ∈ extension_to_toml e) ∧
    (Line.kv "provisional" "true" ∈ extension_to_toml e ∨
      Line.kv "provisional" "false" ∈ extension_to_toml e) ∧
    (Line.kv "devices" "true" ∈ handle_to_toml hl ∨
      Line.kv "devices" "false" ∈ handle_to_toml hl) ∧
    (Line.kv "primary" "true" ∈ command_to_toml hl c ∨
      Line.kv "primary" "false" ∈ command_to_toml hl c) ∧
    (Line.kv "const" "true" ∈ command_to_toml hl c ∨
      Line.kv "const" "false" ∈ command_to_toml hl c) ∧
    (Line.kv "null_terminated" "true" ∈ command_to_toml hl c ∨
      Line.kv "null_terminated" "false" ∈ command_to_toml hl c) ∧
    (Line.kv "union" "true" ∈ struct_to_toml st ∨
      Line.kv "union" "false" ∈ struct_to_toml st) ∧
    (Line.kv "optional" "true" ∈ struct_to_toml st ∨
      Line.kv "optional" "false" ∈ struct_to_toml st) ∧
    (Line.kv "multibit" "true" ∈ bitmask_to_toml bm ∨
      Line.kv "multibit" "false" ∈ bitmask_to_toml bm) ∧
    (Line.kv "extern_sync" "True" ∈ command_to_toml hl c ∨
      Line.kv "extern_sync" "False" ∈ command_to_toml hl c) ∧
    (Line.kv "extern_sync" "True" ∈ struct_to_toml st ∨
      Line.kv "extern_sync" "False" ∈ struct_to_toml st) ∧
    Line.kv "extern_sync" "true" ∉ param_lines p ∧
    Line.kv "extern_sync" "false" ∉ param_lines p := by
  refine ⟨kv_boolLit_or (b := e.«instance») (by simp [extension_to_toml]),
    kv_boolLit_or (b := e.provisional) (by simp [extension_to_toml]),
    kv_boolLit_or (b := hl.device) (by simp [handle_to_toml]),
    kv_boolLit_or (b := c.primary) (by simp [command_to_toml]),
    kv_boolLit_or (b := p.const)
      (mem_command_of_mem_param hl hp (by simp [param_lines])),
    kv_boolLit_or (b := p.nullTerminated)
      (mem_command_of_mem_param hl hp (by simp [param_lines])),
    kv_boolLit_or (b := st.union) (by simp [struct_to_toml]),
    kv_boolLit_or (b := m.optional)
      (mem_struct_of_mem_member hm (by simp [member_lines])),
    kv_boolLit_or (b := fb.multiBit)
      (mem_bitmask_of_mem_flag hfb (by simp [flag_lines])),
    kv_pyStrBool_or (b := p.externSync)
      (mem_command_of_mem_param hl hp (by simp [param_lines])),
    kv_pyStrBool_or (b := m.externSync)
      (mem_struct_of_mem_member hm (by simp [member_lines])),
    ?_, ?_⟩
  · cases hx : p.externSync <;> simp [param_lines, pyStrBool, hx]
  · cases hx : p.externSync <;> simp [param_lines, pyStrBool, hx]

/-- Claim C4, witness: the amended statement instantiated at concrete
entities. -/
theorem C4_boolean_rendering_witness :
    (Line.kv "instance" "true" ∈ extension_to_toml extBase ∨
      Line.kv "instance" "false" ∈ extension_to_toml extBase) ∧
    (Line.kv "provisional" "true" ∈ extension_to_toml extBase ∨
      Line.kv "provisional" "false" ∈ extension_to_toml extBase) ∧
    (Line.kv "devices" "true" ∈ handle_to_toml hanBase ∨
      Line.kv "devices" "false" ∈ handle_to_toml hanBase) ∧
    (Line.kv "primary" "true" ∈ command_to_toml hanBase cmdC4 ∨
      Line.kv "primary" "false" ∈ command_to_toml hanBase cmdC4) ∧
    (Line.kv "const" "true" ∈ command_to_toml hanBase cmdC4 ∨
      Line.kv "const" "false" ∈ command_to_toml hanBase cmdC4) ∧
    (Line.kv "null_terminated" "true" ∈ command_to_toml hanBase cmdC4 ∨
      Line.kv "null_terminated" "false" ∈ command_to_toml hanBase cmdC4) ∧
    (Line.kv "union" "true" ∈ struct_to_toml structW2 ∨
      Line.kv "union" "false" ∈ struct_to_toml structW2) ∧
    (Line.kv "optional" "true" ∈ struct_to_toml structW2 ∨
      Line.kv "optional" "false" ∈ struct_to_toml structW2) ∧
    (Line.kv "multibit" "true" ∈ bitmask_to_toml bmBase ∨
      Line.kv "multibit" "false" ∈ bitmask_to_toml bmBase) ∧
    (Line.kv "extern_sync" "True" ∈ command_to_toml hanBase cmdC4 ∨
      Line.kv "extern_sync" "False" ∈ command_to_toml hanBase cmdC4) ∧
    (Line.kv "extern_sync" "True" ∈ struct_to_toml structW2 ∨
      Line.kv "extern_sync" "False" ∈ struct_to_toml structW2) ∧
    Line.kv "extern_sync" "true" ∉ param_lines parC4 ∧
    Line.kv "extern_sync" "false" ∉ param_lines parC4 :=
  C4_boolean_rendering extBase hanBase cmdC4 parC4 structW2 memBase bmBase
    flagBase (by decide) (by decide) (by decide)

/-- Claim C5: a version record contains the api key-value line twice, not
exactly once — the script prints the identical line two times in a row. -/
theorem C5_duplicate_api_line :
    version_to_toml verBase =
      [Line.header "item", Line.kv "name" "VK_VERSION_1_1",
       Line.kv "api" "vulkan", Line.kv "api" "vulkan", Line.blank] ∧
    (version_to_toml verBase).countP
      (fun l => l == Line.kv "api" "vulkan") = 2 := by decide

/-- Claim C6, counterexample: versions, handles, commands and structs — four
distinct top-level categories — all open with the same header line, so records
of distinct categories do not carry distinct headers. -/
theorem C6_counterexample :
    (version_to_toml verBase).head? = some (Line.header "item") ∧
    (handle_to_toml hanBase).head? = some (Line.header "item") ∧
    (command_to_toml hanBase cmdBase).head? = some (Line.header "item") ∧
    (struct_to_toml structBase).head? = some (Line.header "item") ∧
    (Line.header "item").render = "[[item]]" := by decide

/-- Claim C6 as amended: every top-level record begins with an array-of-tables
header line, but versions, handles, commands and structs all share the
indistinct header item, while the other categories carry category-specific
headers; the single-bracket singleton header form is used exactly once in the
whole output, for the vendor-tags record. -/
theorem C6_headers (vk : VulkanObject) (out : List Line)
    (hout : transcode vk = some out) :
    out.countP isSingletonLine = 1 ∧
    Line.singleton "vendor_tags" ∈ out ∧
    (Line.singleton "vendor_tags").render = "[vendor_tags]" ∧
    (∀ e : Extension, (extension_to_toml e).head? = some (Line.header "extension")) ∧
    (∀ v : Version, (version_to_toml v).head? = some (Line.header "item")) ∧
    (∀ hh : Handle, (handle_to_toml hh).head? = some (Line.header "item")) ∧
    (∀ (hh : Handle) (c : Command),
      (command_to_toml hh c).head? = some (Line.header "item")) ∧
    (∀ st : Struct, (struct_to_toml st).head? = some (Line.header "item")) ∧
    (∀ en : Enum, (enum_to_toml en).head? = some (Line.header "enum")) ∧
    (∀ bm : Bitmask, (bitmask_to_toml bm).head? = some (Line.header "bitmask")) ∧
    (∀ fl : Flags, (flags_to_toml fl).head? = some (Line.header "flags")) ∧
    (∀ co : Constant, (constant_to_toml co).head? = some (Line.header "constant")) ∧
    (∀ s : SpirvItem, (spirv_to_toml s).head? =
      some (if s.extension then Line.header "spirv_extension"
            else Line.header "spirv_capability")) ∧
    (∀ pl : String × String,
      (platform_to_toml pl).head? = some (Line.header "platform")) := by
  unfold transcode at hout
  split at hout
  · exact absurd hout (by simp)
  · cases hout
    refine ⟨?_, ?_, rfl, fun e => rfl, fun v => rfl, fun hh => rfl,
      fun hh c => rfl, fun st => rfl, fun en => rfl, fun bm => rfl,
      fun fl => rfl, fun co => rfl,
      fun s => by cases hx : s.extension <;> simp [spirv_to_toml, hx],
      fun pl => rfl⟩
    · simp only [List.countP_append]
      rw [countP_flatten_zero _ _ _ noSing_extension,
        countP_flatten_zero _ _ _ noSing_version,
        countP_flatten_zero _ _ _ noSing_handle,
        noSing_commandSection,
        countP_flatten_zero _ _ _ noSing_struct,
        countP_flatten_zero _ _ _ noSing_enum,
        countP_flatten_zero _ _ _ noSing_bitmask,
        countP_flatten_zero _ _ _ noSing_flags,
        countP_flatten_zero _ _ _ noSing_constant,
        countP_flatten_zero _ _ _ noSing_spirv,
        countP_flatten_zero _ _ _ noSing_platform]
      simp [List.countP_cons, isSingletonLine,
        countP_flatten_zero _ _ _ (fun x => List.countP_nil _)]
    · simp

/-- Claim C6, witness: the amended statement instantiated at the empty
model. -/
theorem C6_headers_witness :
    ((transcode vkEmpty).getD []).countP isSingletonLine = 1 ∧
    Line.singleton "vendor_tags" ∈ (transcode vkEmpty).getD [] := by
  have h := C6_headers vkEmpty ((transcode vkEmpty).getD []) (by decide)
  exact ⟨h.1, h.2.1⟩

/-- Claim C7: every enable condition of a SPIR-V item is rendered inside the
item's record with all eight keys present as key-value lines, each unmet field
printed as null. -/
theorem C7_enable_fields (s : SpirvItem) (m : Enable) (hm : m ∈ s.enable) :
    (∀ l ∈ enable_lines m, l ∈ spirv_to_toml s) ∧
    keysOf (enable_lines m) =
      ["version", "extension", "struct", "feature", "requires", "property",
       "member", "value"] ∧
    (m.version = none → Line.kv "version" "null" ∈ enable_lines m) ∧
    (m.extension = none → Line.kv "extension" "null" ∈ enable_lines m) ∧
    (m.struct = none → Line.kv "struct" "null" ∈ enable_lines m) ∧
    (m.feature = none → Line.kv "feature" "null" ∈ enable_lines m) ∧
    (m.requires = none → Line.kv "requires" "null" ∈ enable_lines m) ∧
    (m.property = none → Line.kv "property" "null" ∈ enable_lines m) ∧
    (m.member = none → Line.kv "member" "null" ∈ enable_lines m) ∧
    (m.value = none → Line.kv "value" "null" ∈ enable_lines m) := by
  refine ⟨fun l hl => mem_spirv_of_mem_enable hm hl, ?_, ?_, ?_, ?_, ?_, ?_,
    ?_, ?_, ?_⟩
  · simp [keysOf, keyOf, enable_lines]
  all_goals intro h
  · simp [enable_lines, h, strOrNull]
  · simp [enable_lines, h, strOrNull]
  · simp [enable_lines, h, strOrNull]
  · simp [enable_lines, h, strOrNull]
  · simp [enable_lines, h, strOrNull]
  · simp [enable_lines, h, strOrNull]
  · simp [enable_lines, h, strOrNull]
  · simp [enable_lines, h, natFieldOrNull]

/-- Claim C7, witness: the statement instantiated at a SPIR-V item with one
all-absent enable condition. -/
theorem C7_enable_fields_witness :
    (∀ l ∈ enable_lines enBase, l ∈ spirv_to_toml spvC7) ∧
    keysOf (enable_lines enBase) =
      ["version", "extension", "struct", "feature", "requires", "property",
       "member", "value"] :=
  ⟨(C7_enable_fields spvC7 enBase (by decide)).1,
   (C7_enable_fields spvC7 enBase (by decide)).2.1⟩

/-- Claim C8: the fixed category order does hold on completed passes (shown
here on a concrete populated model, with the SPIR-V discriminator choosing the
spirv_extension or spirv_capability header), but a model with a command and no
handles aborts the pass (the stale handle loop variable is unbound) before any
later category or the vendor-tags record is emitted. -/
theorem C8_order_and_abort :
    transcode vkC8bad = none ∧
    transcode vkC8good =
      some (version_to_toml verBase ++ handle_to_toml hanBase
        ++ constant_to_toml conBase ++ spirv_to_toml spvBase
        ++ platform_to_toml ("xlib", "VK_USE_PLATFORM_XLIB_KHR")
        ++ [Line.singleton "vendor_tags", Line.kv "tags" "[KHR,EXT]",
            Line.blank]) ∧
    (spirv_to_toml spvBase).head? = some (Line.header "spirv_extension") ∧
    (spirv_to_toml spvCap).head? = some (Line.header "spirv_capability") := by
  decide

/-- Claim C9: a present-but-falsy optional value renders as null exactly like
an absent one — an extension dependency that is the empty string, a member
bit-field width of zero, and a SPIR-V enable value of zero all print null. -/
theorem C9_falsy_null (e : Extension) (st : Struct) (m : Member)
    (s : SpirvItem) (en : Enable)
    (h1 : e.depends = some "") (h2 : m ∈ st.members)
    (h3 : m.bitFieldWidth = some 0) (h4 : en ∈ s.enable)
    (h5 : en.value = some 0) :
    Line.kv "depends" "null" ∈ extension_to_toml e ∧
    Line.kv "bits" "null" ∈ struct_to_toml st ∧
    Line.kv "value" "null" ∈ spirv_to_toml s ∧
    strOrNull (some "") = strOrNull none ∧
    natFieldOrNull (some 0) = natFieldOrNull none := by
  refine ⟨?_, ?_, ?_, by decide, by decide⟩
  · simp [extension_to_toml, h1, strOrNull]
  · exact mem_struct_of_mem_member h2 (by simp [member_lines, h3, natFieldOrNull])
  · exact mem_spirv_of_mem_enable h4 (by simp [enable_lines, h5, natFieldOrNull])

/-- Claim C9, witness: the statement instantiated at concrete entities whose
optional attributes are present but falsy. -/
theorem C9_falsy_null_witness :
    Line.kv "depends" "null" ∈ extension_to_toml extC9 ∧
    Line.kv "bits" "null" ∈ struct_to_toml structC9 ∧
    Line.kv "value" "null" ∈ spirv_to_toml spvC9 ∧
    strOrNull (some "") = strOrNull none ∧
    natFieldOrNull (some 0) = natFieldOrNull none :=
  C9_falsy_null extC9 structC9 { memBase with bitFieldWidth := some 0 } spvC9
    { enBase with value := some 0 } rfl (by decide) rfl (by decide) rfl

/-- Claim C10: on the empty model the output is exactly the vendor-tags
singleton record followed by one blank line — but a model with a command and
no handles aborts before the vendor-tags record is ever printed, so the tail
invariant does not hold for every model. -/
theorem C10_vendor_tags_tail :
    transcode vkEmpty =
      some [Line.singleton "vendor_tags", Line.kv "tags" "[]", Line.blank] ∧
    Line.render Line.blank = "" ∧
    (Line.singleton "vendor_tags").render = "[vendor_tags]" ∧
    Line.kv "tags" (brackets (joinComma [])) = Line.kv "tags" "[]" ∧
    transcode vkC10bad = none := by decide

end VkGen
